import Mathlib

/-!
Shallow embedding of the `stac_pydantic` core: the item `datetime`
cross-field validator (`stac_pydantic/item.py`, `ItemProperties.validate_datetime`),
the extension registry (`stac_pydantic/extensions/__init__.py`, `Extensions`),
and the `validate_item` orchestration (`stac_pydantic/item.py`).

External collaborators called by that code are embedded as well where a claim
depends on them:
  * `pydantic.datetime_parse.parse_datetime` (pydantic v1) — the numeric
    unix-seconds branch, the datetime regular expression, and the
    `datetime(...)` constructor range checks.  IEEE floats are modelled with
    exact rationals, and the regular expression's Unicode digit class with
    ASCII digits; no claim exercises either deviation.
  * `urllib.parse.urlparse` scheme detection (Python 3.7+ rules).
  * Python class-attribute / `dict` lookup semantics (first-match association
    lists; `setattr` and `d[k] = v` prepend a binding that shadows older ones).
Network fetch (`requests`) and generic JSON-schema validation (`jsonschema`)
are parameters of the `validate_item` embedding, mirroring the design's
stated component boundary.
-/

/-- Python `datetime.datetime` value: calendar fields plus an optional
fixed-offset timezone in minutes (`none` models a naive datetime). -/
structure PyDt where
  year : Nat
  month : Nat
  day : Nat
  hour : Nat
  minute : Nat
  second : Nat
  microsecond : Nat
  tzOffsetMinutes : Option Int
  deriving DecidableEq, Repr

/-- Python `datetime.max` (`9999-12-31 23:59:59.999999`, naive). -/
def pyDatetimeMax : PyDt := ⟨9999, 12, 31, 23, 59, 59, 999999, none⟩

/-- Python `datetime.min` (`0001-01-01 00:00:00`, naive). -/
def pyDatetimeMin : PyDt := ⟨1, 1, 1, 0, 0, 0, 0, none⟩

/-- Errors the datetime validator can raise: pydantic's `DateTimeError`
(format error) or a `ValueError` carrying a message. -/
inductive VErr where
  | dateTimeError
  | valueError (msg : String)
  deriving DecidableEq, Repr

/-- Numeric value of an ASCII digit character. -/
def digitVal (c : Char) : Nat := c.toNat - 48

/-- Greedily split off a leading run of ASCII digits. -/
def takeDigits : List Char → List Char × List Char
  | [] => ([], [])
  | c :: cs =>
    if c.isDigit then
      let (ds, r) := takeDigits cs
      (c :: ds, r)
    else ([], c :: cs)

/-- Value of a digit string read in base 10. -/
def digitsNat (ds : List Char) : Nat := ds.foldl (fun a c => 10 * a + digitVal c) 0

/-- Match exactly two digits (the regex `\d{2}`). -/
def exactDigits2 : List Char → Option (Nat × List Char)
  | c1 :: c2 :: r =>
    if c1.isDigit && c2.isDigit then some (10 * digitVal c1 + digitVal c2, r) else none
  | _ => none

/-- Match exactly four digits (the regex `\d{4}`). -/
def exactDigits4 : List Char → Option (Nat × List Char)
  | c1 :: c2 :: c3 :: c4 :: r =>
    if c1.isDigit && c2.isDigit && c3.isDigit && c4.isDigit then
      some (digitsNat [c1, c2, c3, c4], r)
    else none
  | _ => none

/-- Match one or two digits greedily (the regex `\d{1,2}`; the follower in
`datetime_re` is never a digit, so no backtracking is needed). -/
def upTo2Digits : List Char → Option (Nat × List Char)
  | [] => none
  | [c] => if c.isDigit then some (digitVal c, []) else none
  | c1 :: c2 :: r =>
    if c1.isDigit then
      if c2.isDigit then some (10 * digitVal c1 + digitVal c2, r)
      else some (digitVal c1, c2 :: r)
    else none

/-- Require a specific leading character. -/
def expectChar (c : Char) : List Char → Option (List Char)
  | [] => none
  | x :: r => if x = c then some r else none

/-- Raw timezone capture of `datetime_re`: `Z` or `[+-]\d{2}(:?\d{2})?`. -/
inductive TzRaw where
  | utcZ
  | offset (neg : Bool) (hh : Nat) (mm : Option Nat)
  deriving DecidableEq, Repr

/-- The named groups captured by pydantic v1's `datetime_re`. -/
structure RawParts where
  year : Nat
  month : Nat
  day : Nat
  hour : Nat
  minute : Nat
  second : Option Nat
  microsecond : Option Nat
  tz : Option TzRaw
  deriving DecidableEq, Repr

/-- Microsecond group value: the first (at most six) captured digits,
left-justified with `'0'` to six places (`kw['microsecond'].ljust(6, '0')`). -/
def microFromDigits (ds : List Char) : Nat :=
  digitsNat (ds.take 6 ++ List.replicate (6 - (ds.take 6).length) '0')

/-- Match the optional `(?::(?P<second>\d{1,2})(?:\.(?P<microsecond>\d{1,6})\d{0,6})?)?`
part.  After the fractional dot the digit run is consumed whole: a leftover
digit could never match the timezone group or the anchor, so the regex fails
exactly when the run is empty or longer than twelve digits. -/
def matchSecondFrac : List Char → Option (Option Nat × Option Nat × List Char)
  | ':' :: r2 =>
    match upTo2Digits r2 with
    | none => none
    | some (s, r3) =>
      match r3 with
      | '.' :: r4 =>
        let (ds, r5) := takeDigits r4
        if ds.length = 0 || ds.length > 12 then none
        else some (some s, some (microFromDigits ds), r5)
      | _ => some (some s, none, r3)
  | r => some (none, none, r)

/-- Match the optional `(?P<tzinfo>Z|[+-]\d{2}(?::?\d{2})?)?` group. -/
def matchTz : List Char → Option (Option TzRaw × List Char)
  | [] => some (none, [])
  | 'Z' :: r => some (some TzRaw.utcZ, r)
  | c :: r =>
    if c = '+' || c = '-' then
      match exactDigits2 r with
      | none => none
      | some (hh, r2) =>
        match r2 with
        | ':' :: r3 =>
          match exactDigits2 r3 with
          | none => none
          | some (mm, r4) => some (some (TzRaw.offset (c = '-') hh (some mm)), r4)
        | _ =>
          match exactDigits2 r2 with
          | some (mm, r4) => some (some (TzRaw.offset (c = '-') hh (some mm)), r4)
          | none => some (some (TzRaw.offset (c = '-') hh none), r2)
    else some (none, c :: r)

/-- Embeds pydantic v1's `datetime_re` match (anchored on both sides by
`re.match` and the trailing `$`). -/
def matchDatetimeRe (cs : List Char) : Option RawParts := do
  let (year, r1) ← exactDigits4 cs
  let r2 ← expectChar '-' r1
  let (month, r3) ← upTo2Digits r2
  let r4 ← expectChar '-' r3
  let (day, r5) ← upTo2Digits r4
  let r6 ← match r5 with
    | 'T' :: rr => some rr
    | ' ' :: rr => some rr
    | _ => none
  let (hour, r7) ← upTo2Digits r6
  let r8 ← expectChar ':' r7
  let (minute, r9) ← upTo2Digits r8
  let (sec, micro, r10) ← matchSecondFrac r9
  let (tz, r11) ← matchTz r10
  if r11 = [] then some ⟨year, month, day, hour, minute, sec, micro, tz⟩ else none

/-- Gregorian leap-year rule (as used by Python's `datetime`). -/
def isLeapYear (y : Nat) : Bool := y % 4 = 0 && (y % 100 ≠ 0 || y % 400 = 0)

/-- Days in a month of the proleptic Gregorian calendar. -/
def daysInMonth (y m : Nat) : Nat :=
  if m = 2 then (if isLeapYear y then 29 else 28)
  else if m = 4 || m = 6 || m = 9 || m = 11 then 30
  else 31

/-- Embeds pydantic v1 `_parse_timezone`: `Z` is UTC; otherwise the minutes
part is taken from the last two characters only when the capture is longer
than three characters, and `timezone(timedelta(minutes=o))` rejects offsets
of 24 hours or more (`ValueError` becomes `DateTimeError`). -/
def tzOffsetOfRaw : Option TzRaw → Except VErr (Option Int)
  | none => Except.ok none
  | some TzRaw.utcZ => Except.ok (some 0)
  | some (TzRaw.offset neg hh mm) =>
    let off : Int := 60 * hh + (mm.getD 0)
    let off := if neg then -off else off
    if off ≤ -1440 || 1440 ≤ off then Except.error VErr.dateTimeError
    else Except.ok (some off)

/-- Embeds the `datetime(**kw)` construction at the end of `parse_datetime`:
missing groups default to zero and the constructor's range checks raise
`ValueError`, converted to `DateTimeError` by `change_exception`. -/
def buildDatetime (p : RawParts) : Except VErr PyDt := do
  let tzOff ← tzOffsetOfRaw p.tz
  if 1 ≤ p.year ∧ p.year ≤ 9999 ∧ 1 ≤ p.month ∧ p.month ≤ 12 ∧
      1 ≤ p.day ∧ p.day ≤ daysInMonth p.year p.month ∧
      p.hour ≤ 23 ∧ p.minute ≤ 59 ∧ p.second.getD 0 ≤ 59 then
    Except.ok ⟨p.year, p.month, p.day, p.hour, p.minute,
               p.second.getD 0, p.microsecond.getD 0, tzOff⟩
  else Except.error VErr.dateTimeError

/-- Result of Python `float(s)`: a finite value (exact rational in this
embedding), a signed infinity, or NaN. -/
inductive PyFloat where
  | fin (q : ℚ)
  | inf (neg : Bool)
  | nan
  deriving DecidableEq

/-- Lower-case a character list (for the case-insensitive `inf`/`nan` words). -/
def toLowerList (cs : List Char) : List Char := cs.map Char.toLower

/-- Continuation of a digit run in Python float syntax: underscores are legal
only between two digits (`1_0` parses, `1_`, `1__0`, `_1` do not). -/
def dseqCont : List Char → Option (List Char × List Char)
  | '_' :: c :: r =>
    if c.isDigit then (dseqCont r).map (fun p => (c :: p.1, p.2)) else none
  | ['_'] => none
  | c :: r =>
    if c.isDigit then (dseqCont r).map (fun p => (c :: p.1, p.2)) else some ([], c :: r)
  | [] => some ([], [])

/-- A digit run in Python float syntax (must start with a digit); returns the
digits with underscores removed. -/
def dseq : List Char → Option (List Char × List Char)
  | c :: r => if c.isDigit then (dseqCont r).map (fun p => (c :: p.1, p.2)) else none
  | [] => none

/-- Mantissa of a Python float literal: `digits[.digits]`, `digits.`, or
`.digits`; at least one digit overall. -/
def parseMantissa : List Char → Option (List Char × List Char × List Char)
  | '.' :: r =>
    match dseq r with
    | some (fs, rest) => some ([], fs, rest)
    | none => none
  | cs =>
    match dseq cs with
    | none => none
    | some (is, rest) =>
      match rest with
      | '.' :: r2 =>
        match dseq r2 with
        | some (fs, rest2) => some (is, fs, rest2)
        | none => some (is, [], r2)
      | _ => some (is, [], rest)

/-- Exact rational value of a parsed float literal. -/
def pyFloatOfParts (neg : Bool) (is fs : List Char) (eneg : Bool) (eds : List Char) : ℚ :=
  let mant : ℚ := (digitsNat (is ++ fs) : ℚ)
  let e10 : Int := (if eneg then -(digitsNat eds : Int) else (digitsNat eds : Int)) - fs.length
  let base : ℚ := if 0 ≤ e10 then mant * (10 : ℚ) ^ e10.toNat else mant / (10 : ℚ) ^ (-e10).toNat
  if neg then -base else base

/-- Exponent tail of a float literal, after the `e`/`E`: optional sign, then a
digit run that must consume the rest of the input. -/
def parseExpTail (neg : Bool) (is fs : List Char) (cs : List Char) : Option PyFloat :=
  let p := match cs with
    | '+' :: r => (false, r)
    | '-' :: r => (true, r)
    | r => (false, r)
  match dseq p.2 with
  | some (eds, []) => some (PyFloat.fin (pyFloatOfParts neg is fs p.1 eds))
  | _ => none

/-- Body of a Python float literal after the optional sign. -/
def parsePyFloatAfterSign (neg : Bool) (cs : List Char) : Option PyFloat :=
  let low := toLowerList cs
  if low = ['i', 'n', 'f'] || low = ['i', 'n', 'f', 'i', 'n', 'i', 't', 'y'] then
    some (PyFloat.inf neg)
  else if low = ['n', 'a', 'n'] then some PyFloat.nan
  else
    match parseMantissa cs with
    | none => none
    | some (is, fs, rest) =>
      match rest with
      | [] => some (PyFloat.fin (pyFloatOfParts neg is fs false []))
      | 'e' :: r2 => parseExpTail neg is fs r2
      | 'E' :: r2 => parseExpTail neg is fs r2
      | _ => none

/-- Embeds Python `float(s)` (as called by pydantic's `get_numeric`):
surrounding whitespace is stripped, then an optional sign followed by
`inf`/`infinity`/`nan` or a decimal literal with optional exponent.
Finite values are kept as exact rationals. -/
def parsePyFloat (s : String) : Option PyFloat :=
  let cs := ((s.toList.dropWhile Char.isWhitespace).reverse.dropWhile Char.isWhitespace).reverse
  match cs with
  | [] => none
  | '+' :: r => parsePyFloatAfterSign false r
  | '-' :: r => parsePyFloatAfterSign true r
  | cs => parsePyFloatAfterSign false cs

/-- Proleptic Gregorian civil date from days since the Unix epoch
(Howard Hinnant's `civil_from_days`, as `datetime` + `timedelta` compute). -/
def civilFromDays (z0 : Int) : Int × Nat × Nat :=
  let z := z0 + 719468
  let era : Int := z.fdiv 146097
  let doe : Nat := (z - era * 146097).toNat
  let yoe : Nat := (doe - doe / 1460 + doe / 36524 - doe / 146096) / 365
  let doy : Nat := doe - (365 * yoe + yoe / 4 - yoe / 100)
  let mp : Nat := (5 * doy + 2) / 153
  let d : Nat := doy - (153 * mp + 2) / 5 + 1
  let m : Nat := if mp < 10 then mp + 3 else mp - 9
  let y : Int := (yoe : Int) + era * 400
  (if m ≤ 2 then y + 1 else y, m, d)

/-- Round a rational to the nearest integer, ties to even (the rounding
`timedelta` applies at microsecond resolution). -/
def roundHalfEven (q : ℚ) : Int :=
  let f : Int := ⌊q⌋
  let r : ℚ := q - (f : ℚ)
  if r < 1 / 2 then f
  else if 1 / 2 < r then f + 1
  else if f % 2 = 0 then f else f + 1

/-- `MS_WATERSHED = int(2e10)` from pydantic v1. -/
def msWatershed : ℚ := 20000000000

/-- `MAX_NUMBER = int(3e20)` from pydantic v1. -/
def maxUnixNumber : ℚ := 300000000000000000000

/-- The `while abs(seconds) > MS_WATERSHED: seconds /= 1000` loop; after the
`MAX_NUMBER` clamp at most four divisions are needed, so fuel 8 is exact. -/
def watershedLoop : Nat → ℚ → ℚ
  | 0, q => q
  | n + 1, q => if |q| > msWatershed then watershedLoop n (q / 1000) else q

/-- Embeds pydantic v1 `from_unix_seconds`: clamp to `datetime.max`/`min`
outside `MAX_NUMBER`, divide down milliseconds past the watershed, then
`EPOCH + timedelta(seconds=seconds)` tagged UTC.  `timedelta(seconds=nan)`
raises `ValueError` in Python, which propagates uncaught. -/
def fromUnixSeconds (f : PyFloat) : Except VErr PyDt :=
  match f with
  | PyFloat.inf neg => Except.ok (if neg then pyDatetimeMin else pyDatetimeMax)
  | PyFloat.nan => Except.error (VErr.valueError "cannot convert float NaN to integer")
  | PyFloat.fin q0 =>
    if q0 > maxUnixNumber then Except.ok pyDatetimeMax
    else if q0 < -maxUnixNumber then Except.ok pyDatetimeMin
    else
      let q := watershedLoop 8 q0
      let us : Int := roundHalfEven (q * 1000000)
      let days : Int := us.fdiv 86400000000
      let rem : Nat := (us - days * 86400000000).toNat
      let ymd := civilFromDays days
      if ymd.1 < 1 || ymd.1 > 9999 then Except.error (VErr.valueError "date value out of range")
      else
        Except.ok ⟨ymd.1.toNat, ymd.2.1, ymd.2.2, rem / 3600000000, rem / 60000000 % 60,
                   rem / 1000000 % 60, rem % 1000000, some 0⟩

/-- Embeds pydantic v1 `parse_datetime` restricted to string input (the only
way the repository calls it): first `get_numeric` (Python `float`), falling
back to the `datetime_re` match, `DateTimeError` when neither applies. -/
def parse_datetime (s : String) : Except VErr PyDt :=
  match parsePyFloat s with
  | some f => fromUnixSeconds f
  | none =>
    match matchDatetimeRe s.toList with
    | some p => buildDatetime p
    | none => Except.error VErr.dateTimeError

/-- The `Union[dt, str]` value the `datetime` field validator receives. -/
inductive DtOrStr where
  | dt (d : PyDt)
  | str (s : String)
  deriving DecidableEq, Repr

/-- Modelled from the spec: the sibling temporal fields of
`StacCommonMetadata` (`shared.py` is not part of the provided sources) —
optional `start_datetime` / `end_datetime`, validated before `datetime` and
hence available in pydantic's `values` mapping; `None` is falsy and any
datetime value is truthy. -/
structure DtSiblings where
  start_datetime : Option PyDt
  end_datetime : Option PyDt
  deriving DecidableEq, Repr

/-- Embeds `ItemProperties.validate_datetime` from `stac_pydantic/item.py`:
if the raw value equals the string `"null"` and both range fields are falsy,
raise a `ValueError`; afterwards any string value (the sentinel included) is
handed to `parse_datetime`, and non-strings pass through unchanged. -/
def ItemProperties.validate_datetime (v : DtOrStr) (values : DtSiblings) :
    Except VErr DtOrStr := do
  if v = DtOrStr.str "null" then
    if values.start_datetime.isNone && values.end_datetime.isNone then
      throw (VErr.valueError
        "start_datetime and end_datetime must be specified when datetime is null")
  match v with
  | DtOrStr.str s => do
    let d ← parse_datetime s
    pure (DtOrStr.dt d)
  | DtOrStr.dt _ => pure v

/-- A value stored in an attribute of the `Extensions` registry class:
an extension model class, the `aliases` dict, or a bound classmethod. -/
inductive PyVal (α : Type) where
  | model (m : α)
  | dict (d : List (String × String))
  | method (name : String)
  deriving DecidableEq, Repr

/-- The registry's class-attribute namespace.  Python attribute and dict
lookup return the most recent binding, modelled by first-match search in an
association list to which `setattr` / item assignment prepend. -/
abbrev Attrs (α : Type) := List (String × PyVal α)

/-- First-match association-list lookup (Python attribute / `dict` lookup). -/
def alookup {β : Type} : List (String × β) → String → Option β
  | [], _ => none
  | (k, v) :: r, key => if k = key then some v else alookup r key

/-- Insert-or-shadow update (Python `setattr` / `d[k] = v`). -/
def aset {β : Type} (st : List (String × β)) (k : String) (v : β) :
    List (String × β) :=
  (k, v) :: st

/-- Characters allowed in a URL scheme by `urllib.parse`
(letters, digits, `+`, `-`, `.`). -/
def schemeChar (c : Char) : Bool :=
  c.isAlpha || c.isDigit || c = '+' || c = '-' || c = '.'

/-- Embeds `urlparse(k).scheme` being non-empty (Python 3.7+ `urlsplit`):
the string has a colon at a positive index and every character before it is a
scheme character. -/
def hasScheme (s : String) : Bool :=
  match s.toList.findIdx? (fun c => c = ':') with
  | some i => 0 < i && (s.toList.take i).all schemeChar
  | none => false

/-- Embeds `k.replace("-", "_")`. -/
def replaceHyphens (s : String) : String :=
  String.mk (s.toList.map (fun c => if c = '-' then '_' else c))

/-- The key actually looked up by `Extensions.get`: the source rebinds `k` to
`k.replace("-", "_")` exactly when `urlparse(k).scheme` is empty. -/
def Extensions.normKey (k : String) : String :=
  if hasScheme k then k else replaceHyphens k

/-- The class attributes of `Extensions` at import time: the twelve built-in
extension models (identified here by their class names), the empty `aliases`
dict, and the two classmethods. -/
def Extensions.init : Attrs String :=
  [("datacube", PyVal.model "DatacubeExtension"),
   ("eo", PyVal.model "ElectroOpticalExtension"),
   ("item_assets", PyVal.model "ItemAssetExtension"),
   ("label", PyVal.model "LabelExtension"),
   ("pointcloud", PyVal.model "PointCloudExtension"),
   ("projection", PyVal.model "ProjectionExtension"),
   ("sar", PyVal.model "SARExtension"),
   ("sat", PyVal.model "SatelliteExtension"),
   ("scientific", PyVal.model "ScientificCitationExtension"),
   ("timestamps", PyVal.model "TimestampsExtension"),
   ("version", PyVal.model "VersionExtension"),
   ("view", PyVal.model "ViewExtension"),
   ("aliases", PyVal.dict []),
   ("register", PyVal.method "register"),
   ("get", PyVal.method "get")]

/-- Embeds `Extensions.register`: `setattr(cls, k, v)`, then, when an alias is
given, `cls.aliases[alias] = k`.  The item assignment needs the current
`aliases` attribute to be a dict; otherwise Python raises, modelled by the
error cases. -/
def Extensions.register {α : Type} (st : Attrs α) (k : String) (v : α)
    (al : Option String) : Except String (Attrs α) :=
  let st1 := aset st k (PyVal.model v)
  match al with
  | none => Except.ok st1
  | some al =>
    match alookup st1 "aliases" with
    | some (PyVal.dict d) => Except.ok (aset st1 "aliases" (PyVal.dict (aset d al k)))
    | some _ => Except.error "TypeError: object does not support item assignment"
    | none => Except.error "AttributeError: type object Extensions has no attribute aliases"

/-- The lookup performed by `Extensions.get` after the key has been rebound:
`getattr(cls, k)`; on `AttributeError`, `getattr(cls, cls.aliases[k])`, where
only a `KeyError` from the dict subscript is converted into the
`AttributeError` with the "Invalid extension name or alias" message — an
alias whose target attribute is missing lets `getattr`'s own error escape. -/
def Extensions.getResolved {α : Type} (st : Attrs α) (k : String) :
    Except String (PyVal α) :=
  match alookup st k with
  | some v => Except.ok v
  | none =>
    match alookup st "aliases" with
    | some (PyVal.dict d) =>
      match alookup d k with
      | some name =>
        match alookup st name with
        | some v => Except.ok v
        | none => Except.error ("type object Extensions has no attribute " ++ name)
      | none => Except.error ("Invalid extension name or alias: " ++ k)
    | some _ => Except.error "TypeError: object is not subscriptable"
    | none => Except.error "AttributeError: type object Extensions has no attribute aliases"

/-- Embeds `Extensions.get`: the source normalizes `k` in place
(`k = k.replace("-", "_")` when there is no scheme) and continues with the
rebound key, so every later use — lookups and the error message alike — sees
the normalized key. -/
def Extensions.get {α : Type} (st : Attrs α) (k : String) : Except String (PyVal α) :=
  Extensions.getResolved st (Extensions.normKey k)

/-- Raw JSON value (the untyped nested mapping `validate_item` receives). -/
inductive JVal where
  | null
  | bool (b : Bool)
  | num (n : Int)
  | str (s : String)
  | arr (xs : List JVal)
  | obj (fs : List (String × JVal))

/-- A raw JSON object, as a key/value association list. -/
abbrev JObj := List (String × JVal)

/-- Exceptions arising inside `validate_item`'s `try` block. -/
inductive Exc where
  | keyError (k : String)
  | typeError (msg : String)
  | validationError (msg : String)
  | networkError (msg : String)
  | schemaError (msg : String)
  deriving DecidableEq, Repr

/-- Python truthiness of a JSON value (`if item["stac_extensions"]:`). -/
def truthy : JVal → Bool
  | JVal.null => false
  | JVal.bool b => b
  | JVal.num n => n != 0
  | JVal.str s => !s.isEmpty
  | JVal.arr xs => !xs.isEmpty
  | JVal.obj fs => !fs.isEmpty

/-- Python iteration over a JSON value (`for ext in ...`): lists yield their
elements, strings their characters, objects their keys; other values raise
`TypeError`. -/
def iterVal : JVal → Except Exc (List JVal)
  | JVal.arr xs => Except.ok xs
  | JVal.str s => Except.ok (s.toList.map (fun c => JVal.str (String.singleton c)))
  | JVal.obj fs => Except.ok (fs.map (fun f => JVal.str f.1))
  | _ => Except.error (Exc.typeError "object is not iterable")

/-- The external collaborators `validate_item` calls, per the design's
component boundary: pydantic shape validation of the whole `Item` model
(`Item.parse_obj`), schema fetch over the network (`requests.get(ext)` plus
`req.json()`), and generic JSON-schema validation (`jsonschema.validate`).
Each may raise, modelled by `Except`. -/
structure ValidateDeps where
  parse_obj : JObj → Except Exc Unit
  fetchSchema : String → Except Exc JVal
  jsonschemaValidate : JObj → JVal → Except Exc Unit

/-- The extension loop body: fetch each declared URI and validate the original
raw document against the fetched schema, in declaration order, stopping at the
first exception.  A non-string element makes `requests.get` raise. -/
def validateExtensionList (deps : ValidateDeps) (item : JObj) :
    List JVal → Except Exc Unit
  | [] => Except.ok ()
  | ext :: rest => do
    match ext with
    | JVal.str u =>
      let schema ← deps.fetchSchema u
      deps.jsonschemaValidate item schema
    | _ => throw (Exc.typeError "url must be a string")
    validateExtensionList deps item rest

/-- The body of `validate_item`'s `try` block: `Item.parse_obj(item)`, then
`if item["stac_extensions"]:` — a plain subscript that raises `KeyError` when
the key is absent — and the per-URI fetch-and-validate loop. -/
def runValidateItem (deps : ValidateDeps) (item : JObj) : Except Exc Unit := do
  deps.parse_obj item
  match alookup item "stac_extensions" with
  | none => throw (Exc.keyError "stac_extensions")
  | some v =>
    if truthy v then do
      let exts ← iterVal v
      validateExtensionList deps item exts
    else pure ()

/-- Embeds `validate_item`: any exception from the `try` block is re-raised
when `reraise_exception` is set and otherwise collapsed into `False`; success
yields `True`. -/
def validate_item (deps : ValidateDeps) (item : JObj) (reraise_exception : Bool) :
    Except Exc Bool :=
  match runValidateItem deps item with
  | Except.ok _ => Except.ok true
  | Except.error e => if reraise_exception then Except.error e else Except.ok false

/-- Decidable equality for `Except`, used to evaluate results in witnesses. -/
instance {ε α : Type} [DecidableEq ε] [DecidableEq α] : DecidableEq (Except ε α) := fun x y =>
  match x, y with
  | Except.ok a, Except.ok b => decidable_of_iff (a = b) (by simp)
  | Except.error a, Except.error b => decidable_of_iff (a = b) (by simp)
  | Except.ok _, Except.error _ => isFalse (fun h => Except.noConfusion h)
  | Except.error _, Except.ok _ => isFalse (fun h => Except.noConfusion h)

/-- A sample structured datetime (2020-01-01T00:00:00Z) used as a concrete
range endpoint in witnesses. -/
def sampleDt : PyDt := ⟨2020, 1, 1, 0, 0, 0, 0, some 0⟩

/-- A second sample structured datetime (2020-01-02T00:00:00Z). -/
def sampleDt2 : PyDt := ⟨2020, 1, 2, 0, 0, 0, 0, some 0⟩

/-- The consistency message raised by the cross-field rule. -/
def nullRangeMsg : String :=
  "start_datetime and end_datetime must be specified when datetime is null"

/-- C1: the claim says that with raw `datetime == "null"` and both range
fields present and truthy, construction succeeds and the stored value stays
the literal `"null"`.  The code instead falls through its own carve-out and
hands the sentinel to `parse_datetime`, which always raises a
`DateTimeError`: with both range fields set, the validator still fails. -/
theorem c1_null_sentinel_still_parsed (sd ed : Option PyDt)
    (hs : sd.isSome) (he : ed.isSome) :
    ItemProperties.validate_datetime (DtOrStr.str "null") ⟨sd, ed⟩ =
      Except.error VErr.dateTimeError := by
  obtain ⟨a, rfl⟩ := Option.isSome_iff_exists.mp hs
  obtain ⟨b, rfl⟩ := Option.isSome_iff_exists.mp he
  rfl

/-- C1 witness: concrete range endpoints 2020-01-01Z and 2020-01-02Z. -/
theorem c1_null_sentinel_still_parsed_witness :
    ItemProperties.validate_datetime (DtOrStr.str "null")
        ⟨some sampleDt, some sampleDt2⟩ = Except.error VErr.dateTimeError :=
  c1_null_sentinel_still_parsed (some sampleDt) (some sampleDt2) rfl rfl

/-- C2 counterexample: with `datetime == "null"` and exactly one range field
present (start set, end `None`), the validator does not raise the cross-field
consistency `ValueError`; it falls through to parsing the sentinel and fails
with a `DateTimeError` instead, refuting the claim that the consistency error
is raised whenever not both fields are present. -/
theorem c2_one_sided_range_no_consistency_error :
    ItemProperties.validate_datetime (DtOrStr.str "null") ⟨some sampleDt, none⟩ =
        Except.error VErr.dateTimeError ∧
      VErr.dateTimeError ≠ VErr.valueError nullRangeMsg :=
  ⟨rfl, fun h => VErr.noConfusion h⟩

/-- C2 (amended): the cross-field consistency error is raised exactly when
both `start_datetime` and `end_datetime` are falsy; whenever at least one of
them is present the consistency check passes and the validator instead fails
with a `DateTimeError` from parsing the `"null"` sentinel. -/
theorem c2_consistency_error_iff_both_missing (sd ed : Option PyDt) :
    ItemProperties.validate_datetime (DtOrStr.str "null") ⟨sd, ed⟩ =
      (if sd.isNone && ed.isNone then Except.error (VErr.valueError nullRangeMsg)
       else Except.error VErr.dateTimeError) := by
  cases sd <;> cases ed <;> rfl

/-- C7: for every non-sentinel string the validator returns exactly what
`parse_datetime` produces; `"2020-01-01T00:00:00Z"` parses to the structured
instant 2020-01-01 00:00:00 UTC, `"not-a-date"` raises a format error, and
every non-string (structured) input passes through unchanged. -/
theorem c7_string_parse_and_passthrough :
    (∀ (s : String) (vals : DtSiblings), s ≠ "null" →
        ItemProperties.validate_datetime (DtOrStr.str s) vals =
          (parse_datetime s).map DtOrStr.dt) ∧
      parse_datetime "2020-01-01T00:00:00Z" =
        Except.ok ⟨2020, 1, 1, 0, 0, 0, 0, some 0⟩ ∧
      parse_datetime "not-a-date" = Except.error VErr.dateTimeError ∧
      (∀ (d : PyDt) (vals : DtSiblings),
        ItemProperties.validate_datetime (DtOrStr.dt d) vals =
          Except.ok (DtOrStr.dt d)) := by
  refine ⟨?_, rfl, rfl, fun d vals => rfl⟩
  intro s vals hs
  have hne : DtOrStr.str s ≠ DtOrStr.str "null" := by
    intro hc
    exact hs (by injection hc)
  unfold ItemProperties.validate_datetime
  rw [if_neg hne]
  cases h : parse_datetime s with
  | ok d => simp [h, Except.map, Bind.bind, Except.bind, Pure.pure, Except.pure]
  | error e => simp [h, Except.map, Bind.bind, Except.bind, Pure.pure, Except.pure]

/-- C7 witness: the parametric part applied at the concrete non-sentinel
string `"2020-01-01T00:00:00Z"`. -/
theorem c7_string_parse_and_passthrough_witness :
    ItemProperties.validate_datetime (DtOrStr.str "2020-01-01T00:00:00Z") ⟨none, none⟩ =
      (parse_datetime "2020-01-01T00:00:00Z").map DtOrStr.dt :=
  c7_string_parse_and_passthrough.1 "2020-01-01T00:00:00Z" ⟨none, none⟩ (by decide)

/-- C4 counterexample: looking up the unregistered hyphenated key
`"no-such-ext"` raises the "Invalid extension name or alias" error carrying
the normalized key `no_such_ext`, not the caller's original key with hyphens
intact as the claim states. -/
theorem c4_message_carries_normalized_key :
    Extensions.get Extensions.init "no-such-ext" =
        Except.error "Invalid extension name or alias: no_such_ext" ∧
      Extensions.get Extensions.init "no-such-ext" ≠
        Except.error "Invalid extension name or alias: no-such-ext" := by
  exact ⟨rfl, by decide⟩

/-- C4 (amended): when the normalized key is neither a registry attribute nor
a key of the alias dict, `Extensions.get` raises an attribute-style error
whose message is `"Invalid extension name or alias: {normalized_key}"` — the
source rebinds `k` before raising, so the message carries the normalized key
(identical to the original only when normalization leaves it unchanged). -/
theorem c4_not_found_error_names_normalized_key {α : Type} (st : Attrs α)
    (k : String) (d : List (String × String))
    (h1 : alookup st (Extensions.normKey k) = none)
    (h2 : alookup st "aliases" = some (PyVal.dict d))
    (h3 : alookup d (Extensions.normKey k) = none) :
    Extensions.get st k =
      Except.error ("Invalid extension name or alias: " ++ Extensions.normKey k) := by
  simp only [Extensions.get, Extensions.getResolved, h1, h2, h3]

/-- C4 witness: the amended theorem at the concrete key `"nope-x"` against the
import-time registry. -/
theorem c4_not_found_error_names_normalized_key_witness :
    Extensions.get Extensions.init "nope-x" =
      Except.error ("Invalid extension name or alias: " ++ Extensions.normKey "nope-x") :=
  c4_not_found_error_names_normalized_key Extensions.init "nope-x" [] rfl rfl rfl

/-- C5 counterexample: registering the hyphenated name `"point-cloud"`
succeeds, yet the promised `get` of the very same name fails — `get`
normalizes the key to `point_cloud`, which matches neither the stored
attribute nor any alias. -/
theorem c5_hyphenated_registration_unreachable :
    (Extensions.register Extensions.init "point-cloud" "PointCloudModel" none).map
        (fun st => Extensions.get st "point-cloud") =
      Except.ok (Except.error "Invalid extension name or alias: point_cloud") := rfl

/-- C5 (amended): after a successful `register(name, model, alias)`,
`get(name)` returns `model` provided `name` survives `get`'s normalization
unchanged; and `get(alias)` returns the same `model` provided the alias also
survives normalization and does not collide with any attribute of the
registry class. -/
theorem c5_register_then_get {α : Type} (st : Attrs α) (k : String) (v : α)
    (al : Option String) (st' : Attrs α)
    (hreg : Extensions.register st k v al = Except.ok st')
    (hk : Extensions.normKey k = k) :
    Extensions.get st' k = Except.ok (PyVal.model v) ∧
    ∀ a, al = some a → Extensions.normKey a = a → alookup st' a = none →
      Extensions.get st' a = Except.ok (PyVal.model v) := by
  cases al with
  | none =>
    simp only [Extensions.register, Except.ok.injEq] at hreg
    subst hreg
    refine ⟨?_, fun a ha _ _ => absurd ha (by simp)⟩
    simp [Extensions.get, Extensions.getResolved, hk, aset, alookup]
  | some a0 =>
    simp only [Extensions.register] at hreg
    split at hreg
    · rename_i d hal
      simp only [Except.ok.injEq] at hreg
      subst hreg
      have hkal : k ≠ "aliases" := by
        intro hkk
        subst hkk
        simp [aset, alookup] at hal
      constructor
      · unfold Extensions.get
        rw [hk]
        simp [Extensions.getResolved, aset, alookup, hkal, Ne.symm hkal]
      · intro a ha hna hnone
        injection ha with ha0
        subst ha0
        unfold Extensions.get Extensions.getResolved
        rw [hna]
        simp only [hnone]
        simp [aset, alookup, hkal, Ne.symm hkal]
    · exact absurd hreg (by simp)
    · exact absurd hreg (by simp)

/-- The registry state after `register("foo", "M", alias="bar")` on the
import-time registry. -/
def regFooBar : Attrs String :=
  aset (aset Extensions.init "foo" (PyVal.model "M")) "aliases"
    (PyVal.dict (aset [] "bar" "foo"))

/-- C5 witness: registering `"foo"` with alias `"bar"` and looking both up. -/
theorem c5_register_then_get_witness :
    Extensions.get regFooBar "foo" = Except.ok (PyVal.model "M") ∧
      Extensions.get regFooBar "bar" = Except.ok (PyVal.model "M") :=
  have h := c5_register_then_get Extensions.init "foo" "M" (some "bar") regFooBar rfl rfl
  ⟨h.1, h.2 "bar" rfl rfl (by decide)⟩

/-- C8: keys without a URI scheme have every hyphen replaced by an underscore
before lookup and URI keys are looked up verbatim; `"point-cloud"` normalizes
to `"point_cloud"`, and `"https://example.com/v1/schema"` has a scheme. -/
theorem c8_normalize_iff_no_scheme :
    (∀ (α : Type) (st : Attrs α) (k : String), hasScheme k = false →
        Extensions.get st k = Extensions.getResolved st (replaceHyphens k)) ∧
      (∀ (α : Type) (st : Attrs α) (k : String), hasScheme k = true →
        Extensions.get st k = Extensions.getResolved st k) ∧
      replaceHyphens "point-cloud" = "point_cloud" ∧
      hasScheme "https://example.com/v1/schema" = true := by
  refine ⟨?_, ?_, by decide, by decide⟩
  · intro α st k h
    unfold Extensions.get Extensions.normKey
    rw [h]
    simp
  · intro α st k h
    unfold Extensions.get Extensions.normKey
    rw [h]
    simp

/-- C8 witness: the no-scheme case at the concrete key `"point-cloud"`. -/
theorem c8_normalize_iff_no_scheme_witness :
    Extensions.get Extensions.init "point-cloud" =
      Extensions.getResolved Extensions.init (replaceHyphens "point-cloud") :=
  c8_normalize_iff_no_scheme.1 String Extensions.init "point-cloud" (by decide)

/-- C10: the keys `"aliases"`, `"register"` and `"get"` are not registered
extension names, yet `Extensions.get` returns the registry's own class
attributes — the alias dict and the bound classmethods — instead of raising
the "not found" error: attribute lookup does not distinguish extension-model
bindings from the class's other attributes. -/
theorem c10_registry_attributes_shadow_lookup :
    Extensions.get Extensions.init "aliases" = Except.ok (PyVal.dict []) ∧
      Extensions.get Extensions.init "register" = Except.ok (PyVal.method "register") ∧
      Extensions.get Extensions.init "get" = Except.ok (PyVal.method "get") :=
  ⟨rfl, rfl, rfl⟩

/-- Concrete collaborators whose shape validation always succeeds (and whose
network always fails, never reached in the C3 inputs). -/
def depsShapeOk : ValidateDeps :=
  ⟨fun _ => Except.ok (), fun u => Except.error (Exc.networkError u),
   fun _ _ => Except.ok ()⟩

/-- Concrete collaborators whose shape validation raises a construction error
(a document missing the required `id`). -/
def depsShapeFail : ValidateDeps :=
  ⟨fun _ => Except.error (Exc.validationError "id: field required"),
   fun u => Except.error (Exc.networkError u), fun _ _ => Except.ok ()⟩

/-- C3: the claim (and the `Item` model, whose `stac_extensions` field is
`Optional`) says a shape-valid document with no declared extensions validates
to `True`, whether the key is absent, `None`, or an empty list.  The code
subscripts the raw mapping (`item["stac_extensions"]`), so an absent key
raises `KeyError` — collapsed to `False` by default and re-raised under
`reraise_exception=True` — while `None` and `[]` do yield `True`. -/
theorem c3_absent_extensions_key_fails :
    validate_item depsShapeOk [("id", JVal.str "sample")] false = Except.ok false ∧
      validate_item depsShapeOk [("id", JVal.str "sample")] true =
        Except.error (Exc.keyError "stac_extensions") ∧
      validate_item depsShapeOk
          [("id", JVal.str "sample"), ("stac_extensions", JVal.null)] false =
        Except.ok true ∧
      validate_item depsShapeOk
          [("id", JVal.str "sample"), ("stac_extensions", JVal.arr [])] false =
        Except.ok true :=
  ⟨rfl, rfl, rfl, rfl⟩

/-- C6: whenever the `try` block fails — construction error, missing-key
error, network error, malformed schema or schema mismatch, whatever the
collaborators raise first — `validate_item` returns `False` without raising
under the default flag and propagates that first exception unmodified when
`reraise_exception` is set. -/
theorem c6_reraise_policy (deps : ValidateDeps) (item : JObj) (e : Exc)
    (h : runValidateItem deps item = Except.error e) :
    validate_item deps item false = Except.ok false ∧
      validate_item deps item true = Except.error e := by
  unfold validate_item
  rw [h]
  exact ⟨rfl, rfl⟩

/-- C6 witness: a document whose construction fails (missing `id`). -/
theorem c6_reraise_policy_witness :
    validate_item depsShapeFail [] false = Except.ok false ∧
      validate_item depsShapeFail [] true =
        Except.error (Exc.validationError "id: field required") :=
  c6_reraise_policy depsShapeFail [] (Exc.validationError "id: field required") rfl
